import Mathlib

/-!
Shallow embedding of the shamus-frontend real-time client core:
the optimistic settings reconciler of `src/views/GameView.vue`,
the connection manager of `src/composables/useWebSocket.ts`,
the action-timer subsystem of `src/composables/useActions.ts`,
and the game store of `src/stores/gameStore.ts`.
-/

namespace Shamus

/-- `RoleType` from `src/types/roles.ts`: the four role keys of the
role-count mapping. -/
inductive RoleType where
  | villager
  | werewolf
  | seer
  | witch
deriving DecidableEq, Repr

/-- `Record<RoleType, number>`: the role-count mapping used in
`GameSettings.roles`. One `Nat` per role key. -/
structure Roles where
  villager : Nat
  werewolf : Nat
  seer : Nat
  witch : Nat
deriving DecidableEq, Repr

/-- Read `roles[roleType]` (a `Record<RoleType, number>` is total; the
source's `|| 0` is the identity on a present numeric entry and `0` stays
`0`). -/
def Roles.get (rs : Roles) : RoleType → Nat
  | .villager => rs.villager
  | .werewolf => rs.werewolf
  | .seer => rs.seer
  | .witch => rs.witch

/-- The spread update `{ ...baseRoles, [roleType]: newCount }`. -/
def Roles.set (rs : Roles) : RoleType → Nat → Roles
  | .villager, n => { rs with villager := n }
  | .werewolf, n => { rs with werewolf := n }
  | .seer, n => { rs with seer := n }
  | .witch, n => { rs with witch := n }

/-- The fields of `GameDataEventData` (src/types/events.ts) that the
settings reconciler reads or rewrites: `status`, `host`, `phase`, `day`
and `settings.roles`.  `roles` is an `Option` because the view code
reads it through optional chaining (`actualGame.value?.settings?.roles`). -/
structure GameData where
  status : String
  phase : String
  day : Nat
  host : String
  roles : Option Roles
deriving DecidableEq, Repr

/-- The reactive state of `GameView.vue` that the optimistic settings
reconciler touches: `currentUserId`, `actualGame`, `pendingRoles`,
`lastConfirmedRoles`, the debounce timer (`settingsDebounceTimeout`,
modelled as armed-or-not), the error banner state, and the list of
settings payloads handed to `send` (network sends). -/
structure GVState where
  currentUserId : Option String
  actualGame : Option GameData
  pendingRoles : Option Roles
  lastConfirmedRoles : Option Roles
  settingsDebounce : Bool
  settingsError : Option String
  settingsErrorTimeout : Bool
  sends : List Roles
deriving DecidableEq, Repr

/-- `isHost` computed: `actualGame.host === currentUserId`, false when
either is absent. -/
def isHost (s : GVState) : Bool :=
  match s.actualGame, s.currentUserId with
  | some g, some uid => g.host = uid
  | _, _ => false

/-- `isWaiting` computed: `actualGame?.status === 'waiting'`. -/
def isWaiting (s : GVState) : Bool :=
  match s.actualGame with
  | some g => g.status = "waiting"
  | none => false

/-- `canEditSettings` computed: `isHost && isWaiting`. -/
def canEditSettings (s : GVState) : Bool :=
  isHost s && isWaiting s

/-- Whether `actualGame.value?.settings?.roles` is present. -/
def hasRoleSettings (s : GVState) : Bool :=
  match s.actualGame with
  | some g => g.roles.isSome
  | none => false

/-- `updateRoleCount(roleType, delta)` of GameView.vue: bail unless role
settings exist and `canEditSettings`; base on the pending edit if one
exists, else on the snapshot roles; clamp `currentCount + delta` at 0
(`Math.max(0, ...)` is `Int.toNat` here); write the new mapping to both
the pending slot and the visible snapshot; re-arm the debounce timer. -/
def updateRoleCount (s : GVState) (r : RoleType) (delta : Int) : GVState :=
  match s.actualGame with
  | none => s
  | some g =>
    match g.roles with
    | none => s
    | some gr =>
      if canEditSettings s then
        let baseRoles := s.pendingRoles.getD gr
        let newCount : Nat := ((baseRoles.get r : Int) + delta).toNat
        let newRoles := baseRoles.set r newCount
        { s with
          pendingRoles := some newRoles
          actualGame := some { g with roles := some newRoles }
          settingsDebounce := true }
      else s

/-- `sendPendingSettings()`: nothing to do without a pending edit;
otherwise hand the pending mapping to `send` and clear the pending slot. -/
def sendPendingSettings (s : GVState) : GVState :=
  match s.pendingRoles with
  | none => s
  | some pr => { s with sends := s.sends ++ [pr], pendingRoles := none }

/-- The debounce timer firing: only an armed timer fires, it is consumed,
and its callback is `sendPendingSettings`. -/
def fireSettingsDebounce (s : GVState) : GVState :=
  if s.settingsDebounce then
    sendPendingSettings { s with settingsDebounce := false }
  else s

/-- `showSettingsError(message)`: set the banner, cancel a pending
debounced send, discard the pending edit, roll the visible snapshot's
roles back to `lastConfirmedRoles` (only when both it and a snapshot
exist), and arm the banner auto-clear timeout. -/
def showSettingsError (s : GVState) (msg : String) : GVState :=
  { s with
    settingsError := some msg
    settingsDebounce := false
    pendingRoles := none
    actualGame :=
      match s.lastConfirmedRoles, s.actualGame with
      | some lc, some g => some { g with roles := some lc }
      | _, _ => s.actualGame
    settingsErrorTimeout := true }

/-- `handleGameData(data)` of GameView.vue: replace the snapshot; when the
snapshot carries role settings, record them as the confirmed baseline. -/
def handleGameData (s : GVState) (d : GameData) : GVState :=
  { s with
    actualGame := some d
    lastConfirmedRoles :=
      match d.roles with
      | some r => some r
      | none => s.lastConfirmedRoles }

/-- `handleSettingsUpdate(data)`: on a confirmed server echo (and only if
a snapshot exists) install the echoed roles into the snapshot, advance
the confirmed baseline, and clear the pending edit. -/
def handleSettingsUpdate (s : GVState) (newRoles : Roles) : GVState :=
  match s.actualGame with
  | none => s
  | some g =>
    { s with
      actualGame := some { g with roles := some newRoles }
      lastConfirmedRoles := some newRoles
      pendingRoles := none }

/-- Folding a burst of `updateRoleCount` calls over the state. -/
def applyUpdates (s : GVState) : List (RoleType × Int) → GVState
  | [] => s
  | (r, d) :: rest => applyUpdates (updateRoleCount s r d) rest

/-- The pure fold of a burst over a role mapping: each call clamps
`current + delta` at the non-negative floor and writes it back. -/
def rolesAfter (base : Roles) : List (RoleType × Int) → Roles
  | [] => base
  | (r, d) :: rest => rolesAfter (base.set r (((base.get r : Int) + d).toNat)) rest

/-- The role mapping currently visible in the snapshot, when any. -/
def visibleRoles (s : GVState) : Option Roles :=
  match s.actualGame with
  | some g => g.roles
  | none => none

/-- The initial reactive state of `GameView.vue`: no user, no snapshot,
no pending edit, no confirmed baseline, no armed timers, nothing sent. -/
def initGVState : GVState :=
  ⟨none, none, none, none, false, none, false, []⟩

/-- States of `GameView.vue` reachable through the mutators that touch
the settings reconciler's fields: setting the current user id (onMounted),
the two inbound handlers, local edits, the rejection path, and the
debounce timer firing. -/
inductive GVReachable : GVState → Prop where
  | init : GVReachable initGVState
  | setUser {s : GVState} (uid : String) :
      GVReachable s → GVReachable { s with currentUserId := some uid }
  | gameData {s : GVState} (d : GameData) :
      GVReachable s → GVReachable (handleGameData s d)
  | settingsUpdate {s : GVState} (rs : Roles) :
      GVReachable s → GVReachable (handleSettingsUpdate s rs)
  | update {s : GVState} (r : RoleType) (d : Int) :
      GVReachable s → GVReachable (updateRoleCount s r d)
  | showError {s : GVState} (m : String) :
      GVReachable s → GVReachable (showSettingsError s m)
  | fire {s : GVState} :
      GVReachable s → GVReachable (fireSettingsDebounce s)

/-- Whenever the visible snapshot carries role settings, a confirmed
baseline has been recorded. -/
def confirmedBaselineInv (s : GVState) : Prop :=
  ∀ g, s.actualGame = some g → g.roles.isSome = true →
    s.lastConfirmedRoles.isSome = true

/-- The debounce window of GameView.vue (`SETTINGS_DEBOUNCE_DELAY`),
in milliseconds. -/
def SETTINGS_DEBOUNCE_DELAY : Nat := 300

/-- Concrete role mapping used by the evaluation witnesses. -/
def exampleRoles : Roles := ⟨5, 2, 1, 1⟩

/-- Concrete waiting-room snapshot hosted by `"h"`. -/
def exampleGame : GameData := ⟨"waiting", "start", 0, "h", some exampleRoles⟩

/-- Concrete GameView state: the host `"h"` looking at `exampleGame`,
with `exampleRoles` as the confirmed baseline and no pending edit. -/
def exampleGVState : GVState :=
  ⟨some "h", some exampleGame, none, some exampleRoles, false, none, false, []⟩

/-- Concrete GameView state of a non-host guest `"u"` in a waiting game
hosted by `"h"`. -/
def exampleGuestState : GVState :=
  ⟨some "u", some exampleGame, none, some exampleRoles, false, none, false, []⟩

/-! ## Connection manager: `src/composables/useWebSocket.ts` -/

/-- `WebSocket.readyState` of the one live transport handle. -/
inductive ReadyState where
  | CONNECTING
  | OPEN
  | CLOSING
  | CLOSED
deriving DecidableEq, Repr

/-- `WebSocketStatus`: `'connecting' | 'open' | 'closing' | 'closed' |
'error'`. -/
inductive WSStatus where
  | connecting
  | opened
  | closing
  | closedSt
  | errorSt
deriving DecidableEq, Repr

/-- The fields of the `config` object built from `WebSocketOptions` that
drive the reconnection policy (defaults: `autoReconnect: true`,
`reconnectDelay: 3000`, `maxReconnectAttempts: 5`). -/
structure WSConfig where
  autoReconnect : Bool
  reconnectDelay : Nat
  maxReconnectAttempts : Nat
deriving DecidableEq, Repr

/-- The default `config` of `useWebSocket` with no options supplied. -/
def defaultWSConfig : WSConfig := ⟨true, 3000, 5⟩

/-- The guard `reconnectAttempts < (config.maxReconnectAttempts ||
Infinity)`: a falsy (zero) configured maximum means no cap. -/
def belowCap (cfg : WSConfig) (attempts : Nat) : Bool :=
  if cfg.maxReconnectAttempts = 0 then true
  else attempts < cfg.maxReconnectAttempts

/-- The mutable state of one `useWebSocket` instance: the live handle's
readyState (`socket.value`), `status.value`, whether `error.value` is
set, `reconnectAttempts`, the pending reconnect timer with its delay
(`reconnectTimer`), a log of `reconnect()` invocations (each tagged with
the delay of the timer that triggered it, `none` for a manual call), and
the payloads handed to `socket.send`. -/
structure WSState where
  socket : Option ReadyState
  status : WSStatus
  error : Bool
  reconnectAttempts : Nat
  reconnectTimer : Option Nat
  reconnects : List (Option Nat)
  sent : List String
deriving DecidableEq, Repr

/-- `scheduleReconnect()`: coalesce onto an already-pending timer,
otherwise arm one with the configured delay. -/
def scheduleReconnect (cfg : WSConfig) (s : WSState) : WSState :=
  match s.reconnectTimer with
  | some _ => s
  | none => { s with reconnectTimer := some cfg.reconnectDelay }

/-- `updateStatus(newStatus)`: store the status; on `error` or `closed`,
schedule a reconnect when automatic reconnection is enabled and the
attempt counter is under the cap. -/
def updateStatus (cfg : WSConfig) (s : WSState) (ns : WSStatus) : WSState :=
  let s1 := { s with status := ns }
  if ns = WSStatus.errorSt ∨ ns = WSStatus.closedSt then
    if cfg.autoReconnect && belowCap cfg s1.reconnectAttempts then
      scheduleReconnect cfg s1
    else s1
  else s1

/-- `close(code, reason)`: clear any pending reconnect timer; if a handle
exists and is not already closed, ask the transport to close it (its
readyState moves to CLOSING; the `onclose` event arrives later). -/
def closeOp (s : WSState) : WSState :=
  let s1 := { s with reconnectTimer := none }
  match s1.socket with
  | some rs =>
    if rs = ReadyState.CLOSED then s1
    else { s1 with socket := some ReadyState.CLOSING }
  | none => s1

/-- The synchronous body of `connect()`: bail if a handle is already open
or connecting; clear the pending reconnect timer; move to `connecting`
and install a fresh handle in the CONNECTING readyState. -/
def connectOp (cfg : WSConfig) (s : WSState) : WSState :=
  match s.socket with
  | some ReadyState.OPEN => s
  | some ReadyState.CONNECTING => s
  | _ =>
    let s1 := { s with reconnectTimer := none }
    let s2 := updateStatus cfg s1 WSStatus.connecting
    { s2 with socket := some ReadyState.CONNECTING }

/-- `reconnect()`: `close(1000, 'Reconnecting')`, increment the attempt
counter, connect again.  `via` records what triggered it in the attempt
log: the delay of the fired timer, or `none` for a manual call. -/
def reconnectOp (cfg : WSConfig) («via» : Option Nat) (s : WSState) : WSState :=
  let s1 := { s with reconnects := s.reconnects ++ [«via»] }
  let s2 := closeOp s1
  let s3 := { s2 with reconnectAttempts := s2.reconnectAttempts + 1 }
  connectOp cfg s3

/-- The pending reconnect timer firing: its callback is `reconnect()`. -/
def fireReconnectTimer (cfg : WSConfig) (s : WSState) : WSState :=
  match s.reconnectTimer with
  | none => s
  | some d => reconnectOp cfg (some d) s

/-- The transport's `onopen`: readyState is OPEN, status moves to open,
the stored error is cleared and the attempt counter resets to zero. -/
def onOpen (cfg : WSConfig) (s : WSState) : WSState :=
  let s1 := { s with socket := some ReadyState.OPEN }
  let s2 := updateStatus cfg s1 WSStatus.opened
  { s2 with error := false, reconnectAttempts := 0 }

/-- The transport's `onerror`: record the error value (often followed by
`onclose`). -/
def onError (s : WSState) : WSState :=
  { s with error := true }

/-- The transport's `onclose`: status moves to closed (which may schedule
a reconnect) and the handle reference is dropped. -/
def onClose (cfg : WSConfig) (s : WSState) : WSState :=
  let s1 := updateStatus cfg s WSStatus.closedSt
  { s1 with socket := none }

/-- Result of one `send` call: transmitted, or warned-and-dropped. -/
inductive SendResult where
  | ok
  | warnedNoop
deriving DecidableEq, Repr

/-- `send(content)`: warn and do nothing unless a handle exists in the
OPEN readyState; otherwise hand the serialized payload to the socket. -/
def sendOp (s : WSState) (payload : String) : WSState × SendResult :=
  match s.socket with
  | some ReadyState.OPEN => ({ s with sent := s.sent ++ [payload] }, SendResult.ok)
  | _ => (s, SendResult.warnedNoop)

/-- One consecutive transport failure while reconnection is armed:
`onerror`, then `onclose` (which schedules the reconnect timer), then
the timer fires after the configured delay and runs `reconnect()`. -/
def failCycle (cfg : WSConfig) (s : WSState) : WSState :=
  fireReconnectTimer cfg (onClose cfg (onError s))

/-- `n` consecutive transport failures. -/
def failCycles (cfg : WSConfig) (s : WSState) : Nat → WSState
  | 0 => s
  | n + 1 => failCycle cfg (failCycles cfg s n)

/-- A freshly opened connection with no failures yet. -/
def openWSState : WSState :=
  ⟨some ReadyState.OPEN, WSStatus.opened, false, 0, none, [], []⟩

/-- The state mid-reconnection after `n` attempts: a CONNECTING handle,
status connecting, the error value still set, no pending timer, and `n`
logged timer-driven attempts. -/
def cycleState (cfg : WSConfig) (n : Nat) : WSState :=
  ⟨some ReadyState.CONNECTING, WSStatus.connecting, true, n, none,
    List.replicate n (some cfg.reconnectDelay), []⟩

/-! ## Envelope dispatch: `handleMessage` and GameView's
`handleIncomingMessage` -/

/-- `WebSocketMessage`: `type`, an optional `payload` (the raw text in
the fallback wrapping), and the envelope fields `channel`/`data` when
the frame was structured JSON (`data` is opaque here). -/
structure WSMessage where
  type : String
  payload : Option String
  channel : Option String
deriving DecidableEq, Repr

/-- `handleMessage(rawData)` of useWebSocket.ts, parametrized by the
ambient `JSON.parse`-based decoder: a parse failure wraps the raw text
as `{ type: 'text', payload: rawData }` instead of discarding it. -/
def handleMessage (decode : String → Option WSMessage) (raw : String) : WSMessage :=
  match decode raw with
  | some parsed => parsed
  | none => { type := "text", payload := some raw, channel := none }

/-- JavaScript truthiness of `message.payload` for a string payload. -/
def payloadTruthy (m : WSMessage) : Bool :=
  match m.payload with
  | some p => p ≠ ""
  | none => false

/-- Where GameView's dispatcher sends a message. -/
inductive Route where
  | settingsErrorShown (msg : String)
  | droppedNoType
  | chatMessage
  | gameDataRoute
  | settingsUpdateRoute
  | unhandledGameEvent
  | unhandledSettingsEvent
  | unhandledChannel
deriving DecidableEq, Repr

/-- The routing decision of `handleIncomingMessage(message)` in
GameView.vue: raw-text messages with a truthy payload go to
`showSettingsError`; messages with a falsy `type` are dropped; otherwise
a two-level (channel, type) dispatch. -/
def dispatchRoute (m : WSMessage) : Route :=
  if m.type = "text" && payloadTruthy m then
    Route.settingsErrorShown (m.payload.getD "")
  else if m.type = "" then Route.droppedNoType
  else if m.channel = some "game_event" then
    if m.type = "chat_message" then Route.chatMessage
    else if m.type = "game_data" then Route.gameDataRoute
    else Route.unhandledGameEvent
  else if m.channel = some "settings_event" then
    if m.type = "settings" then Route.settingsUpdateRoute
    else Route.unhandledSettingsEvent
  else Route.unhandledChannel

/-! ## Action timer subsystem: `src/composables/useActions.ts` -/

/-- `ActionStatus` from `src/types/actions.ts`. -/
inductive ActionStatus where
  | pending
  | completed
  | expired
  | cancelled
deriving DecidableEq, Repr

/-- `ActionState`: one tracked action (`payload` and the recorded
`response` are opaque strings here). -/
structure ActionState where
  actionId : String
  type : String
  payload : String
  expiresAt : String
  timeoutSeconds : Nat
  remainingSeconds : Nat
  status : ActionStatus
  response : Option String
deriving DecidableEq, Repr

/-- The `Map<ActionID, ActionState>` of `useActions`, in insertion
order. -/
abbrev ActionsMap := List (String × ActionState)

/-- `Map.set`: replace the value under an existing key in place,
otherwise append the new entry. -/
def mapSet (m : ActionsMap) (k : String) (v : ActionState) : ActionsMap :=
  if (List.lookup k m).isSome then
    List.map (fun p => if p.1 = k then (p.1, v) else p) m
  else m ++ [(k, v)]

/-- `ActionCreatedEventData` from `src/types/actions.ts`. -/
structure ActionCreatedEventData where
  actionId : String
  type : String
  payload : String
  expiresAt : String
  timeout : Nat
deriving DecidableEq, Repr

/-- `ActionExpiredEventData` from `src/types/actions.ts`. -/
structure ActionExpiredEventData where
  actionId : String
  type : String
deriving DecidableEq, Repr

/-- `handleActionCreated(event)`: insert a fresh `pending` action whose
`remainingSeconds` starts at the event's `timeout` (the shared timer is
also started, modelled by applying `tick` below). -/
def handleActionCreated (m : ActionsMap) (e : ActionCreatedEventData) : ActionsMap :=
  mapSet m e.actionId
    ⟨e.actionId, e.type, e.payload, e.expiresAt, e.timeout, e.timeout,
      ActionStatus.pending, none⟩

/-- The per-action body of the shared one-second tick: a still-pending
action with time remaining is decremented, and expires client-side when
the decrement reaches zero. -/
def tickAction (a : ActionState) : ActionState :=
  if a.status = ActionStatus.pending ∧ a.remainingSeconds > 0 then
    if a.remainingSeconds - 1 = 0 then
      { a with remainingSeconds := a.remainingSeconds - 1,
               status := ActionStatus.expired }
    else { a with remainingSeconds := a.remainingSeconds - 1 }
  else a

/-- One invocation of the shared interval callback: every tracked action
is visited. -/
def tick (m : ActionsMap) : ActionsMap :=
  List.map (fun p => (p.1, tickAction p.2)) m

/-- `k` iterations of the shared one-second tick. -/
def ticksN : Nat → ActionsMap → ActionsMap
  | 0, m => m
  | n + 1, m => ticksN n (tick m)

/-- `k`-fold iteration of the per-action tick body. -/
def tickActionIter : Nat → ActionState → ActionState
  | 0, a => a
  | n + 1, a => tickActionIter n (tickAction a)

/-- `handleActionExpired(event)`: when the action is tracked, force its
status to `expired` with zero seconds remaining; otherwise do nothing. -/
def handleActionExpired (m : ActionsMap) (e : ActionExpiredEventData) : ActionsMap :=
  match List.lookup e.actionId m with
  | none => m
  | some _ =>
    List.map (fun p =>
      if p.1 = e.actionId then
        (p.1, { p.2 with status := ActionStatus.expired, remainingSeconds := 0 })
      else p) m

/-- `markActionCompleted(actionId, response)`: when the action is
tracked, mark it completed and record the response; otherwise do
nothing. -/
def markActionCompleted (m : ActionsMap) (actionId : String)
    (response : Option String) : ActionsMap :=
  match List.lookup actionId m with
  | none => m
  | some _ =>
    List.map (fun p =>
      if p.1 = actionId then
        (p.1, { p.2 with status := ActionStatus.completed, response := response })
      else p) m

/-! ## Game store: `src/stores/gameStore.ts` -/

/-- The vote tally state of the store: `active`, the voter→target map,
`myVote`, and the optional `result` field (absent until a round ends;
`some none` is an explicit null result). -/
structure VoteState where
  active : Bool
  votes : List (String × Option String)
  myVote : Option String
  result : Option (Option String)
deriving DecidableEq, Repr

/-- The slice of the game store touched by `handleGameData`: the
snapshot, the win state (opaque), the viewer's revealed role, and the
vote state. -/
structure StoreState where
  game : Option GameData
  winData : Option String
  myRole : Option RoleType
  voteState : VoteState
deriving DecidableEq, Repr

/-- `resetVote()` of the store: a fresh inactive vote state with empty
votes, no own vote and no `result` field. -/
def GameStore.resetVote (s : StoreState) : StoreState :=
  { s with voteState := ⟨false, [], none, none⟩ }

/-- `handleGameData(data)` of the store: replace the snapshot; when its
status is `"waiting"` additionally clear the win state and the revealed
role and reset the vote state. -/
def GameStore.handleGameData (s : StoreState) (d : GameData) : StoreState :=
  let s1 := { s with game := some d }
  if d.status = "waiting" then
    GameStore.resetVote { s1 with winData := none, myRole := none }
  else s1

theorem confirmedBaselineInv_of_reachable {s : GVState}
    (h : GVReachable s) : confirmedBaselineInv s := by
  induction h with
  | init => intro g hg _; simp [initGVState] at hg
  | setUser uid _ ih => intro g hg hr; exact ih g hg hr
  | gameData d _ ih =>
    intro g hg hr
    simp only [handleGameData] at hg ⊢
    cases hg
    cases hd : d.roles with
    | none => rw [hd] at hr; simp at hr
    | some r => simp [hd]
  | settingsUpdate rs hprev ih =>
    rename_i s0
    obtain ⟨uid, ag, pr, lc, db, se, st, sd⟩ := s0
    intro g hg hr
    cases ag with
    | none => exact ih g hg hr
    | some g0 => simp [handleSettingsUpdate]
  | update r d hprev ih =>
    rename_i s0
    obtain ⟨uid, ag, pr, lc, db, se, st, sd⟩ := s0
    intro g hg hr
    cases ag with
    | none => exact ih g hg hr
    | some g0 =>
      obtain ⟨gst, gph, gdy, gh, groles⟩ := g0
      cases groles with
      | none => exact ih g hg hr
      | some gr =>
        by_cases hc : canEditSettings
            ⟨uid, some ⟨gst, gph, gdy, gh, some gr⟩, pr, lc, db, se, st, sd⟩ = true
        · simp only [updateRoleCount] at hg ⊢
          rw [if_pos hc] at hg ⊢
          exact ih ⟨gst, gph, gdy, gh, some gr⟩ rfl rfl
        · simp only [updateRoleCount] at hg ⊢
          rw [if_neg hc] at hg ⊢
          exact ih g hg hr
  | showError m hprev ih =>
    rename_i s0
    obtain ⟨uid, ag, pr, lc, db, se, st, sd⟩ := s0
    intro g hg hr
    cases lc with
    | some c => simp [showSettingsError]
    | none =>
      cases ag with
      | none => simp [showSettingsError] at hg
      | some g0 =>
        simp only [showSettingsError] at hg ⊢
        have hg' : g0 = g := by simpa using hg
        exact ih g0 rfl (by rw [hg']; exact hr)
  | fire hprev ih =>
    rename_i s0
    obtain ⟨uid, ag, pr, lc, db, se, st, sd⟩ := s0
    intro g hg hr
    cases db with
    | false => exact ih g hg hr
    | true =>
      cases pr with
      | none => exact ih g hg hr
      | some p => exact ih g hg hr

/-- Shape of the state after a non-empty burst of `updateRoleCount`
calls that all pass the edit guard: pending slot and visible snapshot
both hold the folded mapping, the debounce timer is armed, and nothing
else (in particular `sends` and the confirmed baseline) changed. -/
theorem applyUpdates_spec (calls : List (RoleType × Int)) :
    ∀ (s : GVState) (g : GameData) (gr : Roles),
      s.actualGame = some g → g.roles = some gr → canEditSettings s = true →
      calls ≠ [] →
      applyUpdates s calls =
        { s with
          pendingRoles := some (rolesAfter (s.pendingRoles.getD gr) calls)
          actualGame := some { g with roles := some (rolesAfter (s.pendingRoles.getD gr) calls) }
          settingsDebounce := true } := by
  induction calls with
  | nil => intro s g gr _ _ _ hne; exact absurd rfl hne
  | cons c rest ih =>
    obtain ⟨r, d⟩ := c
    intro s g gr hg hr hc _
    obtain ⟨uid, ag, pr, lc, db, se, st, sd⟩ := s
    cases hg
    obtain ⟨gst, gph, gdy, gh, groles⟩ := g
    cases hr
    simp only [applyUpdates, updateRoleCount]
    rw [if_pos hc]
    cases rest with
    | nil => simp [applyUpdates, rolesAfter]
    | cons c2 rest2 =>
      have hc1 : canEditSettings
          ⟨uid,
            some ⟨gst, gph, gdy, gh,
              some ((pr.getD gr).set r (((pr.getD gr).get r : Int) + d).toNat)⟩,
            some ((pr.getD gr).set r (((pr.getD gr).get r : Int) + d).toNat),
            lc, true, se, st, sd⟩ = true := by
        cases uid with
        | none => simp [canEditSettings, isHost] at hc
        | some u => simpa [canEditSettings, isHost, isWaiting] using hc
      rw [ih _ _ _ rfl rfl hc1 (by simp)]
      simp [rolesAfter]

/-- **C1.** For every burst of `updateRoleCount` calls whose gaps are all
inside the 300 ms debounce window (so the timer never fires during the
burst), the burst itself performs no network send; the single debounce
firing after the last call sends exactly one payload, namely the fold of
all the calls over the pending-edit-else-snapshot base with the
non-negative clamp; and a further firing sends nothing more. -/
theorem updateRoleCount_debounce_single_send
    (s : GVState) (g : GameData) (gr : Roles) (calls : List (RoleType × Int))
    (hg : s.actualGame = some g) (hr : g.roles = some gr)
    (hc : canEditSettings s = true) (hne : calls ≠ []) :
    (applyUpdates s calls).sends = s.sends ∧
    (fireSettingsDebounce (applyUpdates s calls)).sends
      = s.sends ++ [rolesAfter (s.pendingRoles.getD gr) calls] ∧
    fireSettingsDebounce (fireSettingsDebounce (applyUpdates s calls))
      = fireSettingsDebounce (applyUpdates s calls) := by
  rw [applyUpdates_spec calls s g gr hg hr hc hne]
  refine ⟨rfl, ?_, ?_⟩ <;>
    simp [fireSettingsDebounce, sendPendingSettings]

/-- Witness for C1: the spec's own scenario, two `+1` edits on the seer
count inside one debounce window, one send with the net `+2` payload. -/
theorem updateRoleCount_debounce_single_send_witness :
    (exampleGVState.actualGame = some exampleGame ∧
      exampleGame.roles = some exampleRoles ∧
      canEditSettings exampleGVState = true ∧
      [((RoleType.seer : RoleType), (1 : Int)), (RoleType.seer, 1)] ≠
        ([] : List (RoleType × Int))) ∧
    ((applyUpdates exampleGVState
        [(RoleType.seer, 1), (RoleType.seer, 1)]).sends = exampleGVState.sends ∧
      (fireSettingsDebounce (applyUpdates exampleGVState
        [(RoleType.seer, 1), (RoleType.seer, 1)])).sends
        = exampleGVState.sends ++
            [rolesAfter (exampleGVState.pendingRoles.getD exampleRoles)
              [(RoleType.seer, 1), (RoleType.seer, 1)]] ∧
      fireSettingsDebounce (fireSettingsDebounce (applyUpdates exampleGVState
        [(RoleType.seer, 1), (RoleType.seer, 1)]))
        = fireSettingsDebounce (applyUpdates exampleGVState
            [(RoleType.seer, 1), (RoleType.seer, 1)])) :=
  ⟨⟨rfl, rfl, by decide, by decide⟩,
    updateRoleCount_debounce_single_send exampleGVState exampleGame exampleRoles
      [(RoleType.seer, 1), (RoleType.seer, 1)] rfl rfl (by decide) (by decide)⟩

/-- **C2.** In every reachable GameView state holding a snapshot,
`showSettingsError` cancels the pending debounced send, discards the
uncommitted edit, leaves the confirmed baseline untouched, and makes the
visible snapshot's role settings exactly the Last Confirmed Settings. -/
theorem showSettingsError_rollback
    (s : GVState) (msg : String) (hreach : GVReachable s)
    (hgame : s.actualGame.isSome = true) :
    (showSettingsError s msg).pendingRoles = none ∧
    (showSettingsError s msg).settingsDebounce = false ∧
    (showSettingsError s msg).lastConfirmedRoles = s.lastConfirmedRoles ∧
    visibleRoles (showSettingsError s msg) = s.lastConfirmedRoles := by
  have hinv := confirmedBaselineInv_of_reachable hreach
  obtain ⟨uid, ag, pr, lc, db, se, st, sd⟩ := s
  refine ⟨rfl, rfl, rfl, ?_⟩
  cases ag with
  | none => simp at hgame
  | some g0 =>
    cases lc with
    | some c => simp [showSettingsError, visibleRoles]
    | none =>
      cases hgr : g0.roles with
      | none => simp [showSettingsError, visibleRoles, hgr]
      | some r0 =>
        have := hinv g0 rfl (by simp [hgr])
        simp at this

/-- Witness for C2: one uncommitted seer edit on top of a confirmed
snapshot, then a rejection; the rollback restores the confirmed roles. -/
theorem showSettingsError_rollback_witness :
    ((updateRoleCount
        (handleGameData { initGVState with currentUserId := some "h" } exampleGame)
        RoleType.seer 1).actualGame.isSome = true) ∧
    ((showSettingsError (updateRoleCount
        (handleGameData { initGVState with currentUserId := some "h" } exampleGame)
        RoleType.seer 1) "err").pendingRoles = none ∧
      (showSettingsError (updateRoleCount
        (handleGameData { initGVState with currentUserId := some "h" } exampleGame)
        RoleType.seer 1) "err").settingsDebounce = false ∧
      (showSettingsError (updateRoleCount
        (handleGameData { initGVState with currentUserId := some "h" } exampleGame)
        RoleType.seer 1) "err").lastConfirmedRoles
        = (updateRoleCount
            (handleGameData { initGVState with currentUserId := some "h" } exampleGame)
            RoleType.seer 1).lastConfirmedRoles ∧
      visibleRoles (showSettingsError (updateRoleCount
        (handleGameData { initGVState with currentUserId := some "h" } exampleGame)
        RoleType.seer 1) "err")
        = (updateRoleCount
            (handleGameData { initGVState with currentUserId := some "h" } exampleGame)
            RoleType.seer 1).lastConfirmedRoles) :=
  ⟨by decide,
    showSettingsError_rollback _ "err"
      (GVReachable.update RoleType.seer 1
        (GVReachable.gameData exampleGame
          (GVReachable.setUser "h" GVReachable.init)))
      (by decide)⟩

/-- **C10.** The unstated guard of `updateRoleCount`: when the caller is
not the host, or the game is not in the waiting status, or no snapshot
with role settings is present, the call returns the state unchanged — no
pending edit, no snapshot write, no debounce timer. -/
theorem updateRoleCount_guard_noop (s : GVState) (r : RoleType) (d : Int)
    (h : isHost s = false ∨ isWaiting s = false ∨ hasRoleSettings s = false) :
    updateRoleCount s r d = s := by
  obtain ⟨uid, ag, pr, lc, db, se, st, sd⟩ := s
  cases ag with
  | none => rfl
  | some g0 =>
    obtain ⟨gst, gph, gdy, gh, groles⟩ := g0
    cases groles with
    | none => rfl
    | some gr =>
      have hc : ¬ (canEditSettings
          ⟨uid, some ⟨gst, gph, gdy, gh, some gr⟩, pr, lc, db, se, st, sd⟩ = true) := by
        rcases h with h | h | h
        · simp [canEditSettings, h]
        · simp [canEditSettings, h]
        · simp [hasRoleSettings] at h
      simp only [updateRoleCount]
      rw [if_neg hc]

/-- Witness for C10: a non-host guest's edit attempt changes nothing. -/
theorem updateRoleCount_guard_noop_witness :
    (isHost exampleGuestState = false ∨ isWaiting exampleGuestState = false ∨
      hasRoleSettings exampleGuestState = false) ∧
    updateRoleCount exampleGuestState RoleType.seer 1 = exampleGuestState :=
  ⟨Or.inl (by decide),
    updateRoleCount_guard_noop exampleGuestState RoleType.seer 1 (Or.inl (by decide))⟩

/-! ## Connection manager theorems -/

/-- **C3, counterexample.** The claim says no reconnect attempt ever
follows an explicit `close()`.  In the code, the `onclose` event caused
by the intentional shutdown runs `updateStatus('closed')`, which (with
the default configuration: automatic reconnection on, zero attempts so
far) schedules a fresh reconnect timer, and when that timer fires a
reconnect attempt is made. -/
theorem close_reconnect_counterexample :
    (onClose defaultWSConfig (closeOp openWSState)).reconnectTimer = some 3000 ∧
    (fireReconnectTimer defaultWSConfig
        (onClose defaultWSConfig (closeOp openWSState))).reconnects = [some 3000] := by
  decide

/-- **C3, amended.** `close()` does cancel any pending reconnect timer,
but the closed transition triggered by the intentional shutdown is
handled like any other close: whenever automatic reconnection is enabled
and the attempt counter is under the configured cap, a new reconnect
timer is scheduled with the configured delay. -/
theorem close_cancels_then_onclose_reschedules (cfg : WSConfig) (s : WSState)
    (hauto : cfg.autoReconnect = true)
    (hcap : belowCap cfg s.reconnectAttempts = true) :
    (closeOp s).reconnectTimer = none ∧
    (onClose cfg (closeOp s)).reconnectTimer = some cfg.reconnectDelay := by
  obtain ⟨sock, st, er, ra, rt, rc, sn⟩ := s
  constructor
  · cases sock with
    | none => rfl
    | some rs => cases rs <;> simp [closeOp]
  · cases sock with
    | none => simp [closeOp, onClose, updateStatus, scheduleReconnect, hauto, hcap]
    | some rs =>
      cases rs <;>
        simp [closeOp, onClose, updateStatus, scheduleReconnect, hauto, hcap]

/-- Witness for the amended C3 at the default configuration from a
freshly opened connection. -/
theorem close_cancels_then_onclose_reschedules_witness :
    (defaultWSConfig.autoReconnect = true ∧
      belowCap defaultWSConfig openWSState.reconnectAttempts = true) ∧
    ((closeOp openWSState).reconnectTimer = none ∧
      (onClose defaultWSConfig (closeOp openWSState)).reconnectTimer
        = some defaultWSConfig.reconnectDelay) :=
  ⟨⟨rfl, by decide⟩,
    close_cancels_then_onclose_reschedules defaultWSConfig openWSState rfl (by decide)⟩

/-- One failure cycle from any state with no pending timer and attempt
counter under the cap: it logs exactly one timer-driven reconnect
attempt tagged with the configured delay and leaves a CONNECTING
handle. -/
theorem failCycle_step (cfg : WSConfig) (sock : Option ReadyState)
    (st : WSStatus) (er : Bool) (m : Nat) (log : List (Option Nat))
    (sent : List String)
    (hauto : cfg.autoReconnect = true) (hcap : belowCap cfg m = true) :
    failCycle cfg ⟨sock, st, er, m, none, log, sent⟩ =
      ⟨some ReadyState.CONNECTING, WSStatus.connecting, true, m + 1, none,
        log ++ [some cfg.reconnectDelay], sent⟩ := by
  simp [failCycle, onError, onClose, updateStatus, scheduleReconnect,
    fireReconnectTimer, reconnectOp, closeOp, connectOp, hauto, hcap]

/-- Shape of the state after `n + 1 ≤ max` consecutive failures starting
from a freshly opened connection. -/
theorem failCycles_succ_spec (cfg : WSConfig)
    (hauto : cfg.autoReconnect = true) (hM : cfg.maxReconnectAttempts ≠ 0) :
    ∀ n, n + 1 ≤ cfg.maxReconnectAttempts →
      failCycles cfg openWSState (n + 1) = cycleState cfg (n + 1) := by
  intro n
  induction n with
  | zero =>
    intro h
    have hcap : belowCap cfg 0 = true := by
      simp [belowCap, hM]
      omega
    show failCycle cfg openWSState = _
    rw [show openWSState =
      (⟨some ReadyState.OPEN, WSStatus.opened, false, 0, none, [], []⟩ : WSState) from rfl]
    rw [failCycle_step cfg _ _ _ _ _ _ hauto hcap]
    simp [cycleState]
  | succ k ih =>
    intro h
    have hk : k + 1 ≤ cfg.maxReconnectAttempts := by omega
    have hcap : belowCap cfg (k + 1) = true := by
      simp [belowCap, hM]
      omega
    show failCycle cfg (failCycles cfg openWSState (k + 1)) = _
    rw [ih hk]
    rw [show cycleState cfg (k + 1) =
      (⟨some ReadyState.CONNECTING, WSStatus.connecting, true, k + 1, none,
        List.replicate (k + 1) (some cfg.reconnectDelay), []⟩ : WSState) from rfl]
    rw [failCycle_step cfg _ _ _ _ _ _ hauto hcap]
    simp [cycleState, List.replicate_succ']

/-- **C5.** With automatic reconnection enabled and a finite configured
maximum, `N ≤ max` consecutive transport failures produce exactly `N`
reconnect attempts, each triggered by a timer armed with the configured
delay; the first subsequent successful open resets the attempt counter
to zero and clears the stored error (and adds no further attempt); and
a schedule request while a timer is already pending coalesces into the
existing timer. -/
theorem reconnect_policy (cfg : WSConfig) (N : Nat) (s : WSState) (d : Nat)
    (hauto : cfg.autoReconnect = true) (hM : cfg.maxReconnectAttempts ≠ 0)
    (hN : N ≤ cfg.maxReconnectAttempts)
    (htimer : s.reconnectTimer = some d) :
    (failCycles cfg openWSState N).reconnects
      = List.replicate N (some cfg.reconnectDelay) ∧
    (onOpen cfg (failCycles cfg openWSState N)).reconnectAttempts = 0 ∧
    (onOpen cfg (failCycles cfg openWSState N)).error = false ∧
    (onOpen cfg (failCycles cfg openWSState N)).reconnects
      = List.replicate N (some cfg.reconnectDelay) ∧
    scheduleReconnect cfg s = s := by
  have hsched : scheduleReconnect cfg s = s := by
    simp [scheduleReconnect, htimer]
  cases N with
  | zero =>
    exact ⟨rfl, rfl, rfl, rfl, hsched⟩
  | succ n =>
    rw [failCycles_succ_spec cfg hauto hM n hN]
    refine ⟨rfl, ?_, ?_, ?_, hsched⟩ <;>
      simp [onOpen, updateStatus, cycleState]

/-- Witness for C5: two failures under the default configuration
(max 5), then a successful open. -/
theorem reconnect_policy_witness :
    (defaultWSConfig.autoReconnect = true ∧
      defaultWSConfig.maxReconnectAttempts ≠ 0 ∧
      2 ≤ defaultWSConfig.maxReconnectAttempts ∧
      ({ cycleState defaultWSConfig 1 with reconnectTimer := some 3000 } : WSState).reconnectTimer
        = some 3000) ∧
    ((failCycles defaultWSConfig openWSState 2).reconnects
        = List.replicate 2 (some defaultWSConfig.reconnectDelay) ∧
      (onOpen defaultWSConfig (failCycles defaultWSConfig openWSState 2)).reconnectAttempts = 0 ∧
      (onOpen defaultWSConfig (failCycles defaultWSConfig openWSState 2)).error = false ∧
      (onOpen defaultWSConfig (failCycles defaultWSConfig openWSState 2)).reconnects
        = List.replicate 2 (some defaultWSConfig.reconnectDelay) ∧
      scheduleReconnect defaultWSConfig { cycleState defaultWSConfig 1 with reconnectTimer := some 3000 }
        = { cycleState defaultWSConfig 1 with reconnectTimer := some 3000 }) :=
  ⟨⟨rfl, by decide, by decide, by decide⟩,
    reconnect_policy defaultWSConfig 2
      { cycleState defaultWSConfig 1 with reconnectTimer := some 3000 } 3000
      rfl (by decide) (by decide) (by decide)⟩

/-- **C7.** `send` on any state whose handle is absent or not in the
OPEN readyState returns the state unchanged (nothing transmitted, no
field modified) with only the warned-no-op diagnostic outcome. -/
theorem send_not_open_noop (s : WSState) (payload : String)
    (h : s.socket ≠ some ReadyState.OPEN) :
    sendOp s payload = (s, SendResult.warnedNoop) := by
  obtain ⟨sock, st, er, ra, rt, rc, sn⟩ := s
  cases sock with
  | none => rfl
  | some rs =>
    cases rs with
    | OPEN => simp at h
    | CONNECTING => rfl
    | CLOSING => rfl
    | CLOSED => rfl

/-- Witness for C7: sending on a connection whose handle is gone. -/
theorem send_not_open_noop_witness :
    ((⟨none, WSStatus.closedSt, false, 0, none, [], []⟩ : WSState).socket
        ≠ some ReadyState.OPEN) ∧
    sendOp ⟨none, WSStatus.closedSt, false, 0, none, [], []⟩ "hello"
      = (⟨none, WSStatus.closedSt, false, 0, none, [], []⟩, SendResult.warnedNoop) :=
  ⟨by decide, send_not_open_noop _ "hello" (by decide)⟩

/-- **C8.** An inbound frame the JSON decoder rejects is wrapped as
`{ type: 'text', payload: <raw string> }` rather than discarded, and —
when the payload is non-empty — the GameView dispatcher routes it to the
settings-error display path instead of channel/type routing. -/
theorem nonjson_wrapped_and_routed (decode : String → Option WSMessage)
    (raw : String) (hdec : decode raw = none) (hne : raw ≠ "") :
    handleMessage decode raw = ⟨"text", some raw, none⟩ ∧
    dispatchRoute (handleMessage decode raw) = Route.settingsErrorShown raw := by
  have h1 : handleMessage decode raw = ⟨"text", some raw, none⟩ := by
    simp [handleMessage, hdec]
  refine ⟨h1, ?_⟩
  rw [h1]
  simp [dispatchRoute, payloadTruthy, hne]

/-- Witness for C8: a plain-text server error frame. -/
theorem nonjson_wrapped_and_routed_witness :
    ((fun _ : String => (none : Option WSMessage)) "Server error" = none ∧
      "Server error" ≠ "") ∧
    (handleMessage (fun _ => none) "Server error"
        = ⟨"text", some "Server error", none⟩ ∧
      dispatchRoute (handleMessage (fun _ => none) "Server error")
        = Route.settingsErrorShown "Server error") :=
  ⟨⟨rfl, by decide⟩,
    nonjson_wrapped_and_routed (fun _ => none) "Server error" rfl (by decide)⟩

/-! ## Action timer theorems -/

/-- Looking an id up after one shared tick sees the per-action tick body
applied to the stored entry. -/
theorem lookup_tick (k : String) : ∀ m : ActionsMap,
    List.lookup k (tick m) = (List.lookup k m).map tickAction := by
  intro m
  induction m with
  | nil => rfl
  | cons p rest ih =>
    obtain ⟨a, b⟩ := p
    simp only [tick, List.map] at ih ⊢
    cases hk : (k == a) with
    | true => simp [List.lookup, hk]
    | false => simpa [List.lookup, hk] using ih

/-- Looking an id up after `j` shared ticks sees the `j`-fold iterate of
the per-action tick body. -/
theorem lookup_ticksN (k : String) : ∀ (j : Nat) (m : ActionsMap),
    List.lookup k (ticksN j m) = (List.lookup k m).map (tickActionIter j) := by
  intro j
  induction j with
  | zero =>
    intro m
    cases hx : List.lookup k m <;> simp [ticksN, hx, tickActionIter]
  | succ n ih =>
    intro m
    show List.lookup k (ticksN n (tick m)) = _
    rw [ih (tick m), lookup_tick]
    cases hx : List.lookup k m <;> simp [hx, tickActionIter]

/-- Replacing the value stored under `k` leaves a lookup of `k` seeing
exactly the new value (when the key was present at all). -/
theorem lookup_setMap (k : String) (v : ActionState) : ∀ m : ActionsMap,
    List.lookup k (List.map (fun p => if p.1 = k then (p.1, v) else p) m)
      = Option.map (fun _ => v) (List.lookup k m) := by
  intro m
  induction m with
  | nil => rfl
  | cons p rest ih =>
    obtain ⟨a, b⟩ := p
    by_cases hak : a = k
    · subst hak
      rw [List.map_cons]
      have hf : (if ((a : String), (b : ActionState)).1 = a
          then (((a : String), b).1, v) else ((a : String), b)) = (a, v) := by
        simp
      rw [hf]
      simp [List.lookup]
    · have hk : (k == a) = false := by
        simp [BEq.beq]
        exact fun h => hak h.symm
      simp only [List.map, if_neg hak]
      simpa [List.lookup, hk] using ih

/-- Appending a fresh entry makes its key visible when it was absent. -/
theorem lookup_append_fresh (k : String) (v : ActionState) : ∀ m : ActionsMap,
    List.lookup k m = none → List.lookup k (m ++ [(k, v)]) = some v := by
  intro m
  induction m with
  | nil => intro _; simp [List.lookup]
  | cons p rest ih =>
    obtain ⟨a, b⟩ := p
    intro h
    cases hk : (k == a) with
    | true => simp [List.lookup, hk] at h
    | false =>
      simp only [List.lookup, hk] at h
      simpa [List.lookup, hk] using ih h

/-- `Map.set` followed by a lookup of the same key yields the new
value. -/
theorem lookup_mapSet_self (m : ActionsMap) (k : String) (v : ActionState) :
    List.lookup k (mapSet m k v) = some v := by
  unfold mapSet
  by_cases h : (List.lookup k m).isSome = true
  · rw [if_pos h, lookup_setMap]
    cases hx : List.lookup k m with
    | none => rw [hx] at h; simp at h
    | some a => simp
  · rw [if_neg h]
    refine lookup_append_fresh k v m ?_
    cases hx : List.lookup k m with
    | none => rfl
    | some a => rw [hx] at h; simp at h

/-- A non-pending action is a fixed point of the tick body. -/
theorem tickActionIter_stuck : ∀ (k : Nat) (a : ActionState),
    a.status = ActionStatus.expired → tickActionIter k a = a := by
  intro k
  induction k with
  | zero => intro a _; rfl
  | succ n ih =>
    intro a h
    show tickActionIter n (tickAction a) = a
    have ht : tickAction a = a := by simp [tickAction, h]
    rw [ht]
    exact ih a h

/-- Exact countdown of a pending entry under the per-action tick body:
after `k` ticks the remaining time is `T - k` and the status flips to
`expired` exactly when `k` reaches `T`. -/
theorem tickActionIter_pending (id ty pl ex : String) (T0 : Nat) :
    ∀ (k T : Nat), 1 ≤ T →
      tickActionIter k ⟨id, ty, pl, ex, T0, T, ActionStatus.pending, none⟩ =
        ⟨id, ty, pl, ex, T0, T - k,
          (if k < T then ActionStatus.pending else ActionStatus.expired), none⟩ := by
  intro k
  induction k with
  | zero =>
    intro T hT
    rw [if_pos (show 0 < T by omega)]
    rfl
  | succ n ih =>
    intro T hT
    show tickActionIter n
      (tickAction ⟨id, ty, pl, ex, T0, T, ActionStatus.pending, none⟩) = _
    by_cases hT1 : T = 1
    · subst hT1
      have ht : tickAction ⟨id, ty, pl, ex, T0, 1, ActionStatus.pending, none⟩ =
          ⟨id, ty, pl, ex, T0, 0, ActionStatus.expired, none⟩ := by
        simp [tickAction]
      rw [ht, tickActionIter_stuck n _ rfl]
      have : ¬ (n + 1 < 1) := by omega
      simp [this]
    · have hT2 : 2 ≤ T := by omega
      have ht : tickAction ⟨id, ty, pl, ex, T0, T, ActionStatus.pending, none⟩ =
          ⟨id, ty, pl, ex, T0, T - 1, ActionStatus.pending, none⟩ := by
        unfold tickAction
        rw [if_pos ⟨rfl, show T > 0 by omega⟩,
          if_neg (show ¬ (T - 1 = 0) by omega)]
      rw [ht, ih (T - 1) (by omega)]
      have h1 : T - 1 - n = T - (n + 1) := by omega
      have h2 : (n < T - 1) ↔ (n + 1 < T) := by omega
      rw [h1, if_congr h2 rfl rfl]

/-- **C4.** A pending action created with `timeout = T ≥ 1` and receiving
no completion or server expiry counts down exactly: after `k` shared
ticks its remaining time is `T - k` and it is pending for `k < T` and
expired for `k ≥ T` (hence it expires no earlier than `T - 1` and no
later than `T + 1` ticks: still pending after `T - 1`, expired after
`T + 1`); and for two actions created together with timeouts 5 and 10,
after 6 ticks the first is expired and the second is pending with 4
seconds remaining. -/
theorem action_timer_countdown (m : ActionsMap) (e : ActionCreatedEventData)
    (k : Nat) (hT : 1 ≤ e.timeout) :
    List.lookup e.actionId (ticksN k (handleActionCreated m e))
      = some ⟨e.actionId, e.type, e.payload, e.expiresAt, e.timeout,
          e.timeout - k,
          (if k < e.timeout then ActionStatus.pending else ActionStatus.expired),
          none⟩ ∧
    List.lookup e.actionId (ticksN (e.timeout - 1) (handleActionCreated m e))
      = some ⟨e.actionId, e.type, e.payload, e.expiresAt, e.timeout, 1,
          ActionStatus.pending, none⟩ ∧
    List.lookup e.actionId (ticksN (e.timeout + 1) (handleActionCreated m e))
      = some ⟨e.actionId, e.type, e.payload, e.expiresAt, e.timeout, 0,
          ActionStatus.expired, none⟩ ∧
    (List.lookup "a1" (ticksN 6 (handleActionCreated (handleActionCreated []
        ⟨"a1", "village_vote", "p", "t", 5⟩) ⟨"a2", "seer_vision", "q", "u", 10⟩))).map
        ActionState.status = some ActionStatus.expired ∧
    List.lookup "a2" (ticksN 6 (handleActionCreated (handleActionCreated []
        ⟨"a1", "village_vote", "p", "t", 5⟩) ⟨"a2", "seer_vision", "q", "u", 10⟩))
      = some ⟨"a2", "seer_vision", "q", "u", 10, 4, ActionStatus.pending, none⟩ := by
  have hbase : ∀ j, List.lookup e.actionId (ticksN j (handleActionCreated m e))
      = some (tickActionIter j
          ⟨e.actionId, e.type, e.payload, e.expiresAt, e.timeout, e.timeout,
            ActionStatus.pending, none⟩) := by
    intro j
    rw [lookup_ticksN, show handleActionCreated m e = mapSet m e.actionId
      ⟨e.actionId, e.type, e.payload, e.expiresAt, e.timeout, e.timeout,
        ActionStatus.pending, none⟩ from rfl, lookup_mapSet_self]
    rfl
  refine ⟨?_, ?_, ?_, by decide, by decide⟩
  · rw [hbase k, tickActionIter_pending _ _ _ _ _ k e.timeout hT]
  · rw [hbase (e.timeout - 1),
      tickActionIter_pending _ _ _ _ _ (e.timeout - 1) e.timeout hT]
    have h1 : e.timeout - (e.timeout - 1) = 1 := by omega
    have h2 : e.timeout - 1 < e.timeout := by omega
    rw [h1, if_pos h2]
  · rw [hbase (e.timeout + 1),
      tickActionIter_pending _ _ _ _ _ (e.timeout + 1) e.timeout hT]
    have h1 : e.timeout - (e.timeout + 1) = 0 := by omega
    have h2 : ¬ (e.timeout + 1 < e.timeout) := by omega
    rw [h1, if_neg h2]

/-- Witness for C4: a single 5-second action observed after 6 ticks. -/
theorem action_timer_countdown_witness :
    (1 ≤ (⟨"w1", "witch_potion", "p", "t", 5⟩ : ActionCreatedEventData).timeout) ∧
    (List.lookup "w1" (ticksN 6 (handleActionCreated []
        ⟨"w1", "witch_potion", "p", "t", 5⟩))
      = some ⟨"w1", "witch_potion", "p", "t", 5, 5 - 6,
          (if 6 < 5 then ActionStatus.pending else ActionStatus.expired), none⟩ ∧
      List.lookup "w1" (ticksN (5 - 1) (handleActionCreated []
        ⟨"w1", "witch_potion", "p", "t", 5⟩))
      = some ⟨"w1", "witch_potion", "p", "t", 5, 1, ActionStatus.pending, none⟩ ∧
      List.lookup "w1" (ticksN (5 + 1) (handleActionCreated []
        ⟨"w1", "witch_potion", "p", "t", 5⟩))
      = some ⟨"w1", "witch_potion", "p", "t", 5, 0, ActionStatus.expired, none⟩ ∧
      (List.lookup "a1" (ticksN 6 (handleActionCreated (handleActionCreated []
        ⟨"a1", "village_vote", "p", "t", 5⟩) ⟨"a2", "seer_vision", "q", "u", 10⟩))).map
        ActionState.status = some ActionStatus.expired ∧
      List.lookup "a2" (ticksN 6 (handleActionCreated (handleActionCreated []
        ⟨"a1", "village_vote", "p", "t", 5⟩) ⟨"a2", "seer_vision", "q", "u", 10⟩))
      = some ⟨"a2", "seer_vision", "q", "u", 10, 4, ActionStatus.pending, none⟩) :=
  ⟨by decide,
    action_timer_countdown [] ⟨"w1", "witch_potion", "p", "t", 5⟩ 6 (by decide)⟩

/-- Applying the expiry rewrite twice over a list is the same as
applying it once. -/
theorem expireMap_idem (id : String) : ∀ m : ActionsMap,
    List.map (fun p => if p.1 = id then
        (p.1, { p.2 with status := ActionStatus.expired, remainingSeconds := 0 })
      else p)
      (List.map (fun p => if p.1 = id then
        (p.1, { p.2 with status := ActionStatus.expired, remainingSeconds := 0 })
      else p) m)
    = List.map (fun p => if p.1 = id then
        (p.1, { p.2 with status := ActionStatus.expired, remainingSeconds := 0 })
      else p) m := by
  intro m
  induction m with
  | nil => rfl
  | cons p rest ih =>
    obtain ⟨a, b⟩ := p
    by_cases hak : a = id
    · simp only [List.map, if_pos hak]
      rw [ih]
    · simp only [List.map, if_neg hak]
      rw [ih]

/-- **C6.** `handleActionExpired` is idempotent — a second delivery of the
same `action_expired` envelope leaves the whole action map unchanged —
and delivering it for an untracked `actionId` is a no-op, not a fault. -/
theorem handleActionExpired_idem (m : ActionsMap) (e : ActionExpiredEventData) :
    handleActionExpired (handleActionExpired m e) e = handleActionExpired m e ∧
    (List.lookup e.actionId m = none → handleActionExpired m e = m) := by
  constructor
  · cases h : List.lookup e.actionId m with
    | none =>
      have hm : handleActionExpired m e = m := by simp [handleActionExpired, h]
      rw [hm, hm]
    | some a =>
      have hm : handleActionExpired m e =
          List.map (fun p => if p.1 = e.actionId then
            (p.1, { p.2 with status := ActionStatus.expired, remainingSeconds := 0 })
          else p) m := by
        simp [handleActionExpired, h]
      rw [hm]
      unfold handleActionExpired
      cases h2 : List.lookup e.actionId (List.map (fun p => if p.1 = e.actionId then
          (p.1, { p.2 with status := ActionStatus.expired, remainingSeconds := 0 })
        else p) m) with
      | none => rfl
      | some b => exact expireMap_idem e.actionId m
  · intro h
    simp [handleActionExpired, h]

/-- Witness for C6: a duplicated expiry for a tracked action and an
expiry for an untracked id. -/
theorem handleActionExpired_idem_witness :
    (handleActionExpired (handleActionExpired
        [("a1", ⟨"a1", "village_vote", "p", "t", 5, 3, ActionStatus.pending, none⟩)]
        ⟨"a1", "village_vote"⟩) ⟨"a1", "village_vote"⟩
      = handleActionExpired
        [("a1", ⟨"a1", "village_vote", "p", "t", 5, 3, ActionStatus.pending, none⟩)]
        ⟨"a1", "village_vote"⟩) ∧
    (List.lookup "zz"
        ([("a1", ⟨"a1", "village_vote", "p", "t", 5, 3, ActionStatus.pending, none⟩)] :
          ActionsMap) = none ∧
      handleActionExpired
        [("a1", ⟨"a1", "village_vote", "p", "t", 5, 3, ActionStatus.pending, none⟩)]
        ⟨"zz", "village_vote"⟩
      = [("a1", ⟨"a1", "village_vote", "p", "t", 5, 3, ActionStatus.pending, none⟩)]) :=
  ⟨(handleActionExpired_idem
      [("a1", ⟨"a1", "village_vote", "p", "t", 5, 3, ActionStatus.pending, none⟩)]
      ⟨"a1", "village_vote"⟩).1,
    by decide,
    (handleActionExpired_idem
      [("a1", ⟨"a1", "village_vote", "p", "t", 5, 3, ActionStatus.pending, none⟩)]
      ⟨"zz", "village_vote"⟩).2 (by decide)⟩

/-! ## Game store theorem -/

/-- **C9.** The store's `handleGameData` replaces the snapshot, and —
exactly when the incoming status is `"waiting"` — clears the win state,
the viewer's revealed role, and resets the vote state to inactive with
empty votes and no own vote; for any other status those three sub-states
are untouched. -/
theorem gameStore_handleGameData_spec (s : StoreState) (d : GameData) :
    GameStore.handleGameData s d =
      if d.status = "waiting" then
        { s with game := some d, winData := none, myRole := none,
                 voteState := ⟨false, [], none, none⟩ }
      else { s with game := some d } := by
  by_cases h : d.status = "waiting" <;>
    simp [GameStore.handleGameData, GameStore.resetVote, h]

end Shamus
